import Mathlib

/-!
Verification development for the dynamic overlay lifecycle coordinator
(the class MobileModalOptimizer in src/utils/mobileModal.js).

The embedding is a shallow functional model.  The static structure of the
document tree is a fixed environment of type Nat → ElemData: each DOM
element is identified by a Nat id, and ElemData records the results of the
selector queries the source performs on that element (whether it matches
the modal selector list, which descendants match the addition-time and the
removal-time selector lists, its close buttons, its backdrop, the resolved
content region, and the resolved scrollable region).  All mutable aspects
of the page (the registry, the body inline styles, the data-modal-open
attribute, element classes and attributes, attached listeners, pending
timers and dispatched events) live in the state St, and every method of
the source class becomes a function St → St.  Viewport width is passed as
a Nat parameter w; the source reads window.innerWidth at each use site.
-/

namespace MobileModal

/-- The eight body style properties tracked by saveBodyStyles /
restoreBodyStyles (src/utils/mobileModal.js lines 124-133). -/
structure BodyStyles where
  position : String
  top : String
  left : String
  right : String
  bottom : String
  overflow : String
  height : String
  width : String
  deriving DecidableEq, Repr

/-- The body styles applied while the scroll lock is engaged
(preventBackgroundScroll, lines 249-256). -/
def lockedBodyStyles : BodyStyles :=
  { position := "fixed", top := "0", left := "0", right := "0",
    bottom := "0", overflow := "hidden", height := "100vh", width := "100vw" }

/-- A deferred action scheduled with setTimeout: either the 10 ms entrance
transform reset (setModalStyles line 178) or the 300 ms close continuation
(closeModal line 344). -/
inductive TimerAct where
  | setTransformZero (contentId : Nat)
  | doClose (modalId : Nat)
  deriving DecidableEq, Repr

/-- Static per-element data: the outcome of every selector query the source
performs on an element.  childAddIds is querySelectorAll over the full
nine-selector modal list used by checkForModal (lines 44-48, 62-63);
childRemIds is querySelectorAll over the four-selector list used by
checkForModalRemoval (line 82) — the two lists differ in the source.
contentId is the result of findModalContent (falling back to the element's
own id when no content selector matches, line 213); scrollableId is the
result of findScrollableContent (line 301, none when nothing matches). -/
structure ElemData where
  matchesModal : Bool
  childAddIds : List Nat
  childRemIds : List Nat
  closeButtons : List Nat
  backdrop : Option Nat
  contentId : Nat
  scrollableId : Option Nat
  deriving DecidableEq, Repr

/-- One MutationRecord: the element-node ids of addedNodes and
removedNodes (non-element nodes are filtered out by the nodeType check at
lines 20 and 26, so the model carries only element ids). -/
structure MutationRec where
  added : List Nat
  removed : List Nat
  deriving DecidableEq, Repr

/-- The mutable state of the optimizer together with the mutable aspects of
the page it touches.  buttonHandlers, backdropHandlers and
rootCloseHandlers are multisets (lists with multiplicity) of attached
click/close listeners; events is the ordered log of dispatched closed
events (root ids); transforms is the write log of style.transform
assignments per content id (most recent entry first); timers holds pending
setTimeout callbacks as (delay in ms, action). -/
structure St where
  activeModals : List Nat
  originalBodyStyles : Option BodyStyles
  body : BodyStyles
  modalOpenAttr : Bool
  optimizedClass : List Nat
  closeListenerAttr : List Nat
  buttonHandlers : List Nat
  backdropAttr : List Nat
  backdropHandlers : List Nat
  rootCloseHandlers : List Nat
  indicators : List Nat
  transforms : List (Nat × String)
  timers : List (Nat × TimerAct)
  events : List Nat
  scrollOptimized : List Nat
  deriving DecidableEq, Repr

/-- saveBodyStyles (lines 119-135): capture the computed body styles into
originalBodyStyles only when the snapshot is empty (Object.keys length 0 is
modelled by none). -/
def saveBodyStyles (s : St) : St :=
  match s.originalBodyStyles with
  | none => { s with originalBodyStyles := some s.body }
  | some _ => s

/-- restoreBodyStyles (lines 372-385): only when data-modal-open is set,
remove the attribute, reapply every captured property, and clear the
snapshot.  An empty snapshot (none) reapplies nothing, as Object.keys of
an empty object iterates nothing. -/
def restoreBodyStyles (s : St) : St :=
  if s.modalOpenAttr then
    { s with modalOpenAttr := false,
             body := match s.originalBodyStyles with
                     | some saved => saved
                     | none => s.body,
             originalBodyStyles := none }
  else s

/-- preventBackgroundScroll (lines 241-258): only when data-modal-open is
absent, set it and apply the fixed/hidden lock styles to the body. -/
def preventBackgroundScroll (s : St) : St :=
  if s.modalOpenAttr then s
  else { s with modalOpenAttr := true, body := lockedBodyStyles }

/-- classList.add of the marker class mobile-modal-optimized (line 140);
classList is a set, so adding an already-present class is a no-op. -/
def addClass (m : Nat) (s : St) : St :=
  if m ∈ s.optimizedClass then s
  else { s with optimizedClass := m :: s.optimizedClass }

/-- classList.remove of the marker class (line 360): after the call the
class is absent, whether or not it was present. -/
def removeClass (m : Nat) (s : St) : St :=
  { s with optimizedClass := s.optimizedClass.filter (fun x => x != m) }

/-- A style.transform assignment on a content region; the model logs the
write (most recent first). -/
def setTransform (c : Nat) (t : String) (s : St) : St :=
  { s with transforms := (c, t) :: s.transforms }

/-- findModalContent (lines 199-214): resolve the content region through
the selector fallback chain, falling back to the root itself, so the
result is never null.  The chain's outcome is encoded in ElemData. -/
def findModalContent (doc : Nat → ElemData) (m : Nat) : Nat :=
  (doc m).contentId

/-- addTopIndicator (lines 217-238): insert the drag indicator unless a
.modal-indicator already exists in the content region. -/
def addTopIndicator (c : Nat) (s : St) : St :=
  if c ∈ s.indicators then s
  else { s with indicators := c :: s.indicators }

/-- setModalStyles (lines 156-196).  The early return for a null content
region never fires because findModalContent falls back to the root.  On a
mobile-width viewport (w ≤ 768): write the bottom-sheet cssText whose
transform is translateY(100%), schedule the 10 ms transform reset, and
insert the top indicator.  On desktop: write the centered cssText whose
transform is translate(-50%, -50%). -/
def setModalStyles (doc : Nat → ElemData) (w : Nat) (m : Nat) (s : St) : St :=
  let c := findModalContent doc m
  if w ≤ 768 then
    let s1 := setTransform c "translateY(100%) !important" s
    let s2 := { s1 with timers := s1.timers ++ [(10, TimerAct.setTransformZero c)] }
    addTopIndicator c s2
  else
    setTransform c "translate(-50%, -50%) !important" s

/-- addBackdropClose (lines 261-274): if a backdrop exists and does not
carry data-backdrop-close yet, set the attribute and attach the click
handler. -/
def addBackdropClose (doc : Nat → ElemData) (m : Nat) (s : St) : St :=
  match (doc m).backdrop with
  | none => s
  | some bk =>
      if bk ∈ s.backdropAttr then s
      else { s with backdropAttr := bk :: s.backdropAttr,
                    backdropHandlers := s.backdropHandlers ++ [bk] }

/-- optimizeModalScroll (lines 277-287): when a scrollable sub-region is
found, append the touch-scrolling cssText to it (logged as a multiset,
since cssText += is cumulative). -/
def optimizeModalScroll (doc : Nat → ElemData) (m : Nat) (s : St) : St :=
  match (doc m).scrollableId with
  | none => s
  | some c => { s with scrollOptimized := s.scrollOptimized ++ [c] }

/-- The close-button wiring loop of setupModalCloseListeners (lines
317-328): each button without data-close-listener gets the attribute and a
click handler. -/
def wireButtons (bs : List Nat) (s : St) : St :=
  bs.foldl
    (fun t b =>
      if b ∈ t.closeListenerAttr then t
      else { t with closeListenerAttr := b :: t.closeListenerAttr,
                    buttonHandlers := t.buttonHandlers ++ [b] })
    s

/-- setupModalCloseListeners (lines 315-334): wire the close buttons, then
unconditionally attach the custom close-event listener on the root. -/
def setupModalCloseListeners (doc : Nat → ElemData) (m : Nat) (s : St) : St :=
  let s1 := wireButtons (doc m).closeButtons s
  { s1 with rootCloseHandlers := s1.rootCloseHandlers ++ [m] }

/-- applyModalOptimizations (lines 138-153): add the marker class, apply
the responsive styles, engage the scroll lock, wire the backdrop, and
style the scrollable sub-region. -/
def applyModalOptimizations (doc : Nat → ElemData) (w : Nat) (m : Nat) (s : St) : St :=
  let s1 := addClass m s
  let s2 := setModalStyles doc w m s1
  let s3 := preventBackgroundScroll s2
  let s4 := addBackdropClose doc m s3
  optimizeModalScroll doc m s4

/-- optimizeModal (lines 107-116): no-op when the root is already
registered; otherwise push it, save the body snapshot, apply the
optimizations, and wire the close listeners. -/
def optimizeModal (doc : Nat → ElemData) (w : Nat) (m : Nat) (s : St) : St :=
  if m ∈ s.activeModals then s
  else
    let s1 := { s with activeModals := s.activeModals ++ [m] }
    let s2 := saveBodyStyles s1
    let s3 := applyModalOptimizations doc w m s2
    setupModalCloseListeners doc m s3

/-- checkForModal (lines 43-70): if the element matches the modal selector
list and is not registered, optimize it; then optimize each qualifying
unregistered descendant from the addition-time selector query. -/
def checkForModal (doc : Nat → ElemData) (w : Nat) (e : Nat) (s : St) : St :=
  let s1 := if (doc e).matchesModal ∧ e ∉ s.activeModals
            then optimizeModal doc w e s else s
  (doc e).childAddIds.foldl
    (fun t c => if c ∈ t.activeModals then t else optimizeModal doc w c t) s1

/-- checkForModalRemoval (lines 73-90): if the removed element itself is
registered, restore the body styles and splice it out; then splice out
every registered descendant from the removal-time selector query (with no
body-style restore on that branch). -/
def checkForModalRemoval (doc : Nat → ElemData) (e : Nat) (s : St) : St :=
  let s1 :=
    if e ∈ s.activeModals then
      let s' := restoreBodyStyles s
      { s' with activeModals := s'.activeModals.erase e }
    else s
  (doc e).childRemIds.foldl
    (fun t c => { t with activeModals := t.activeModals.erase c }) s1

/-- doCloseModal (lines 353-369): splice the root from the registry if
present, strip the marker class, restore the body styles when the registry
is now empty, and dispatch the closed event. -/
def doCloseModal (m : Nat) (s : St) : St :=
  let s1 := { s with activeModals := s.activeModals.erase m }
  let s2 := removeClass m s1
  let s3 := if s2.activeModals = [] then restoreBodyStyles s2 else s2
  { s3 with events := s3.events ++ [m] }

/-- closeModal (lines 337-350): on a mobile-width viewport (the
modalContent conjunct is always truthy, since findModalContent falls back
to the root), set the exit transform and schedule doCloseModal after
300 ms; on desktop run doCloseModal immediately. -/
def closeModal (doc : Nat → ElemData) (w : Nat) (m : Nat) (s : St) : St :=
  let c := findModalContent doc m
  if w ≤ 768 then
    let s1 := setTransform c "translateY(100%) !important" s
    { s1 with timers := s1.timers ++ [(300, TimerAct.doClose m)] }
  else
    doCloseModal m s

/-- Running a fired timer callback: the 10 ms callback resets the entrance
transform (line 179); the 300 ms callback runs doCloseModal (line 345). -/
def runTimerAct (a : TimerAct) (s : St) : St :=
  match a with
  | TimerAct.setTransformZero c => setTransform c "translateY(0) !important" s
  | TimerAct.doClose m => doCloseModal m s

/-- The Escape branch of the keydown listener (lines 305-312): when the
registry is non-empty, invoke closeModal on its last entry, re-read at
keypress time. -/
def pressEscape (doc : Nat → ElemData) (w : Nat) (s : St) : St :=
  match s.activeModals.getLast? with
  | some m => closeModal doc w m s
  | none => s

/-- Processing one MutationRecord inside the observer callback (lines
18-29): all addedNodes first, then all removedNodes. -/
def processRecord (doc : Nat → ElemData) (w : Nat) (r : MutationRec) (s : St) : St :=
  let s1 := r.added.foldl (fun t n => checkForModal doc w n t) s
  r.removed.foldl (fun t n => checkForModalRemoval doc n t) s1

/-- Processing a whole mutation batch (mutations.forEach, line 18):
records in order, each handled by processRecord. -/
def processBatch (doc : Nat → ElemData) (w : Nat) (b : List MutationRec) (s : St) : St :=
  b.foldl (fun t r => processRecord doc w r t) s

/-- All ids appearing in some record's addedNodes of a batch. -/
def batchAdded (b : List MutationRec) : List Nat :=
  (b.map MutationRec.added).flatten

/-- All ids appearing in some record's removedNodes of a batch. -/
def batchRemoved (b : List MutationRec) : List Nat :=
  (b.map MutationRec.removed).flatten

/-- A neutral initial body style assignment for concrete scenarios. -/
def b0 : BodyStyles :=
  { position := "static", top := "auto", left := "auto", right := "auto",
    bottom := "auto", overflow := "visible", height := "auto", width := "auto" }

/-- The optimizer's initial state (constructor, lines 3-7): empty registry,
empty snapshot, no lock attribute, nothing wired. -/
def st0 : St :=
  { activeModals := [], originalBodyStyles := none, body := b0,
    modalOpenAttr := false, optimizedClass := [], closeListenerAttr := [],
    buttonHandlers := [], backdropAttr := [], backdropHandlers := [],
    rootCloseHandlers := [], indicators := [], transforms := [],
    timers := [], events := [], scrollOptimized := [] }

/-- A concrete document: element 1 is a modal with two occurrences of the
same close button and a backdrop; element 2 is a plain modal; element 3 is
a container whose removal-time descendant query finds element 2. -/
def doc0 : Nat → ElemData := fun n =>
  if n = 1 then
    { matchesModal := true, childAddIds := [], childRemIds := [],
      closeButtons := [10, 10], backdrop := some 20, contentId := 5,
      scrollableId := none }
  else if n = 2 then
    { matchesModal := true, childAddIds := [], childRemIds := [],
      closeButtons := [], backdrop := none, contentId := 2,
      scrollableId := none }
  else if n = 3 then
    { matchesModal := false, childAddIds := [], childRemIds := [2],
      closeButtons := [], backdrop := none, contentId := 3,
      scrollableId := none }
  else
    { matchesModal := false, childAddIds := [], childRemIds := [],
      closeButtons := [], backdrop := none, contentId := n,
      scrollableId := none }

/-- A state with modal 1 registered, as produced by one mobile-width
registration from the initial state. -/
def stA : St := optimizeModal doc0 375 1 st0

/-- A state with modals 1 and 2 registered, as produced by two mobile-width
registrations from the initial state. -/
def stAB : St := optimizeModal doc0 375 2 (optimizeModal doc0 375 1 st0)

/-- A state in which only modal 2 is registered and the scroll lock is
engaged, used to exercise the descendant-removal path. -/
def stC : St :=
  { st0 with activeModals := [2], modalOpenAttr := true,
             originalBodyStyles := some b0, body := lockedBodyStyles }

/-!
Frame lemmas: which state components each operation leaves untouched.
-/

@[simp]
theorem saveBodyStyles_activeModals (s : St) :
    (saveBodyStyles s).activeModals = s.activeModals := by
  unfold saveBodyStyles; split <;> rfl

@[simp]
theorem saveBodyStyles_modalOpenAttr (s : St) :
    (saveBodyStyles s).modalOpenAttr = s.modalOpenAttr := by
  unfold saveBodyStyles; split <;> rfl

@[simp]
theorem saveBodyStyles_body (s : St) :
    (saveBodyStyles s).body = s.body := by
  unfold saveBodyStyles; split <;> rfl

@[simp]
theorem saveBodyStyles_optimizedClass (s : St) :
    (saveBodyStyles s).optimizedClass = s.optimizedClass := by
  unfold saveBodyStyles; split <;> rfl

@[simp]
theorem saveBodyStyles_closeListenerAttr (s : St) :
    (saveBodyStyles s).closeListenerAttr = s.closeListenerAttr := by
  unfold saveBodyStyles; split <;> rfl

@[simp]
theorem saveBodyStyles_buttonHandlers (s : St) :
    (saveBodyStyles s).buttonHandlers = s.buttonHandlers := by
  unfold saveBodyStyles; split <;> rfl

@[simp]
theorem saveBodyStyles_backdropAttr (s : St) :
    (saveBodyStyles s).backdropAttr = s.backdropAttr := by
  unfold saveBodyStyles; split <;> rfl

@[simp]
theorem saveBodyStyles_backdropHandlers (s : St) :
    (saveBodyStyles s).backdropHandlers = s.backdropHandlers := by
  unfold saveBodyStyles; split <;> rfl

@[simp]
theorem saveBodyStyles_rootCloseHandlers (s : St) :
    (saveBodyStyles s).rootCloseHandlers = s.rootCloseHandlers := by
  unfold saveBodyStyles; split <;> rfl

@[simp]
theorem saveBodyStyles_timers (s : St) :
    (saveBodyStyles s).timers = s.timers := by
  unfold saveBodyStyles; split <;> rfl

@[simp]
theorem saveBodyStyles_events (s : St) :
    (saveBodyStyles s).events = s.events := by
  unfold saveBodyStyles; split <;> rfl

@[simp]
theorem restoreBodyStyles_activeModals (s : St) :
    (restoreBodyStyles s).activeModals = s.activeModals := by
  unfold restoreBodyStyles; split <;> rfl

@[simp]
theorem restoreBodyStyles_optimizedClass (s : St) :
    (restoreBodyStyles s).optimizedClass = s.optimizedClass := by
  unfold restoreBodyStyles; split <;> rfl

@[simp]
theorem restoreBodyStyles_timers (s : St) :
    (restoreBodyStyles s).timers = s.timers := by
  unfold restoreBodyStyles; split <;> rfl

@[simp]
theorem restoreBodyStyles_events (s : St) :
    (restoreBodyStyles s).events = s.events := by
  unfold restoreBodyStyles; split <;> rfl

@[simp]
theorem preventBackgroundScroll_activeModals (s : St) :
    (preventBackgroundScroll s).activeModals = s.activeModals := by
  unfold preventBackgroundScroll; split <;> rfl

@[simp]
theorem preventBackgroundScroll_originalBodyStyles (s : St) :
    (preventBackgroundScroll s).originalBodyStyles = s.originalBodyStyles := by
  unfold preventBackgroundScroll; split <;> rfl

@[simp]
theorem preventBackgroundScroll_optimizedClass (s : St) :
    (preventBackgroundScroll s).optimizedClass = s.optimizedClass := by
  unfold preventBackgroundScroll; split <;> rfl

@[simp]
theorem preventBackgroundScroll_closeListenerAttr (s : St) :
    (preventBackgroundScroll s).closeListenerAttr = s.closeListenerAttr := by
  unfold preventBackgroundScroll; split <;> rfl

@[simp]
theorem preventBackgroundScroll_buttonHandlers (s : St) :
    (preventBackgroundScroll s).buttonHandlers = s.buttonHandlers := by
  unfold preventBackgroundScroll; split <;> rfl

@[simp]
theorem preventBackgroundScroll_backdropAttr (s : St) :
    (preventBackgroundScroll s).backdropAttr = s.backdropAttr := by
  unfold preventBackgroundScroll; split <;> rfl

@[simp]
theorem preventBackgroundScroll_backdropHandlers (s : St) :
    (preventBackgroundScroll s).backdropHandlers = s.backdropHandlers := by
  unfold preventBackgroundScroll; split <;> rfl

@[simp]
theorem preventBackgroundScroll_rootCloseHandlers (s : St) :
    (preventBackgroundScroll s).rootCloseHandlers = s.rootCloseHandlers := by
  unfold preventBackgroundScroll; split <;> rfl

@[simp]
theorem addClass_activeModals (m : Nat) (s : St) :
    (addClass m s).activeModals = s.activeModals := by
  unfold addClass; split <;> rfl

@[simp]
theorem addClass_modalOpenAttr (m : Nat) (s : St) :
    (addClass m s).modalOpenAttr = s.modalOpenAttr := by
  unfold addClass; split <;> rfl

@[simp]
theorem addClass_body (m : Nat) (s : St) :
    (addClass m s).body = s.body := by
  unfold addClass; split <;> rfl

@[simp]
theorem addClass_originalBodyStyles (m : Nat) (s : St) :
    (addClass m s).originalBodyStyles = s.originalBodyStyles := by
  unfold addClass; split <;> rfl

@[simp]
theorem addClass_closeListenerAttr (m : Nat) (s : St) :
    (addClass m s).closeListenerAttr = s.closeListenerAttr := by
  unfold addClass; split <;> rfl

@[simp]
theorem addClass_buttonHandlers (m : Nat) (s : St) :
    (addClass m s).buttonHandlers = s.buttonHandlers := by
  unfold addClass; split <;> rfl

@[simp]
theorem addClass_backdropAttr (m : Nat) (s : St) :
    (addClass m s).backdropAttr = s.backdropAttr := by
  unfold addClass; split <;> rfl

@[simp]
theorem addClass_backdropHandlers (m : Nat) (s : St) :
    (addClass m s).backdropHandlers = s.backdropHandlers := by
  unfold addClass; split <;> rfl

@[simp]
theorem addClass_rootCloseHandlers (m : Nat) (s : St) :
    (addClass m s).rootCloseHandlers = s.rootCloseHandlers := by
  unfold addClass; split <;> rfl

@[simp]
theorem removeClass_activeModals (m : Nat) (s : St) :
    (removeClass m s).activeModals = s.activeModals := rfl

@[simp]
theorem removeClass_modalOpenAttr (m : Nat) (s : St) :
    (removeClass m s).modalOpenAttr = s.modalOpenAttr := rfl

@[simp]
theorem removeClass_events (m : Nat) (s : St) :
    (removeClass m s).events = s.events := rfl

@[simp]
theorem removeClass_originalBodyStyles (m : Nat) (s : St) :
    (removeClass m s).originalBodyStyles = s.originalBodyStyles := rfl

@[simp]
theorem setTransform_activeModals (c : Nat) (t : String) (s : St) :
    (setTransform c t s).activeModals = s.activeModals := rfl

@[simp]
theorem setTransform_modalOpenAttr (c : Nat) (t : String) (s : St) :
    (setTransform c t s).modalOpenAttr = s.modalOpenAttr := rfl

@[simp]
theorem setTransform_body (c : Nat) (t : String) (s : St) :
    (setTransform c t s).body = s.body := rfl

@[simp]
theorem setTransform_originalBodyStyles (c : Nat) (t : String) (s : St) :
    (setTransform c t s).originalBodyStyles = s.originalBodyStyles := rfl

@[simp]
theorem setTransform_optimizedClass (c : Nat) (t : String) (s : St) :
    (setTransform c t s).optimizedClass = s.optimizedClass := rfl

@[simp]
theorem setTransform_closeListenerAttr (c : Nat) (t : String) (s : St) :
    (setTransform c t s).closeListenerAttr = s.closeListenerAttr := rfl

@[simp]
theorem setTransform_buttonHandlers (c : Nat) (t : String) (s : St) :
    (setTransform c t s).buttonHandlers = s.buttonHandlers := rfl

@[simp]
theorem setTransform_backdropAttr (c : Nat) (t : String) (s : St) :
    (setTransform c t s).backdropAttr = s.backdropAttr := rfl

@[simp]
theorem setTransform_backdropHandlers (c : Nat) (t : String) (s : St) :
    (setTransform c t s).backdropHandlers = s.backdropHandlers := rfl

@[simp]
theorem setTransform_rootCloseHandlers (c : Nat) (t : String) (s : St) :
    (setTransform c t s).rootCloseHandlers = s.rootCloseHandlers := rfl

@[simp]
theorem setTransform_events (c : Nat) (t : String) (s : St) :
    (setTransform c t s).events = s.events := rfl

@[simp]
theorem setTransform_timers (c : Nat) (t : String) (s : St) :
    (setTransform c t s).timers = s.timers := rfl

@[simp]
theorem addTopIndicator_activeModals (c : Nat) (s : St) :
    (addTopIndicator c s).activeModals = s.activeModals := by
  unfold addTopIndicator; split <;> rfl

@[simp]
theorem addTopIndicator_modalOpenAttr (c : Nat) (s : St) :
    (addTopIndicator c s).modalOpenAttr = s.modalOpenAttr := by
  unfold addTopIndicator; split <;> rfl

@[simp]
theorem addTopIndicator_body (c : Nat) (s : St) :
    (addTopIndicator c s).body = s.body := by
  unfold addTopIndicator; split <;> rfl

@[simp]
theorem addTopIndicator_originalBodyStyles (c : Nat) (s : St) :
    (addTopIndicator c s).originalBodyStyles = s.originalBodyStyles := by
  unfold addTopIndicator; split <;> rfl

@[simp]
theorem addTopIndicator_optimizedClass (c : Nat) (s : St) :
    (addTopIndicator c s).optimizedClass = s.optimizedClass := by
  unfold addTopIndicator; split <;> rfl

@[simp]
theorem addTopIndicator_closeListenerAttr (c : Nat) (s : St) :
    (addTopIndicator c s).closeListenerAttr = s.closeListenerAttr := by
  unfold addTopIndicator; split <;> rfl

@[simp]
theorem addTopIndicator_buttonHandlers (c : Nat) (s : St) :
    (addTopIndicator c s).buttonHandlers = s.buttonHandlers := by
  unfold addTopIndicator; split <;> rfl

@[simp]
theorem addTopIndicator_backdropAttr (c : Nat) (s : St) :
    (addTopIndicator c s).backdropAttr = s.backdropAttr := by
  unfold addTopIndicator; split <;> rfl

@[simp]
theorem addTopIndicator_backdropHandlers (c : Nat) (s : St) :
    (addTopIndicator c s).backdropHandlers = s.backdropHandlers := by
  unfold addTopIndicator; split <;> rfl

@[simp]
theorem addTopIndicator_rootCloseHandlers (c : Nat) (s : St) :
    (addTopIndicator c s).rootCloseHandlers = s.rootCloseHandlers := by
  unfold addTopIndicator; split <;> rfl

@[simp]
theorem setModalStyles_activeModals (doc : Nat → ElemData) (w m : Nat) (s : St) :
    (setModalStyles doc w m s).activeModals = s.activeModals := by
  unfold setModalStyles; split <;> simp

@[simp]
theorem setModalStyles_modalOpenAttr (doc : Nat → ElemData) (w m : Nat) (s : St) :
    (setModalStyles doc w m s).modalOpenAttr = s.modalOpenAttr := by
  unfold setModalStyles; split <;> simp

@[simp]
theorem setModalStyles_body (doc : Nat → ElemData) (w m : Nat) (s : St) :
    (setModalStyles doc w m s).body = s.body := by
  unfold setModalStyles; split <;> simp

@[simp]
theorem setModalStyles_originalBodyStyles (doc : Nat → ElemData) (w m : Nat) (s : St) :
    (setModalStyles doc w m s).originalBodyStyles = s.originalBodyStyles := by
  unfold setModalStyles; split <;> simp

@[simp]
theorem setModalStyles_optimizedClass (doc : Nat → ElemData) (w m : Nat) (s : St) :
    (setModalStyles doc w m s).optimizedClass = s.optimizedClass := by
  unfold setModalStyles; split <;> simp

@[simp]
theorem setModalStyles_closeListenerAttr (doc : Nat → ElemData) (w m : Nat) (s : St) :
    (setModalStyles doc w m s).closeListenerAttr = s.closeListenerAttr := by
  unfold setModalStyles; split <;> simp

@[simp]
theorem setModalStyles_buttonHandlers (doc : Nat → ElemData) (w m : Nat) (s : St) :
    (setModalStyles doc w m s).buttonHandlers = s.buttonHandlers := by
  unfold setModalStyles; split <;> simp

@[simp]
theorem setModalStyles_backdropAttr (doc : Nat → ElemData) (w m : Nat) (s : St) :
    (setModalStyles doc w m s).backdropAttr = s.backdropAttr := by
  unfold setModalStyles; split <;> simp

@[simp]
theorem setModalStyles_backdropHandlers (doc : Nat → ElemData) (w m : Nat) (s : St) :
    (setModalStyles doc w m s).backdropHandlers = s.backdropHandlers := by
  unfold setModalStyles; split <;> simp

@[simp]
theorem setModalStyles_rootCloseHandlers (doc : Nat → ElemData) (w m : Nat) (s : St) :
    (setModalStyles doc w m s).rootCloseHandlers = s.rootCloseHandlers := by
  unfold setModalStyles; split <;> simp

@[simp]
theorem addBackdropClose_activeModals (doc : Nat → ElemData) (m : Nat) (s : St) :
    (addBackdropClose doc m s).activeModals = s.activeModals := by
  unfold addBackdropClose; split <;> first | rfl | (split <;> rfl)

@[simp]
theorem addBackdropClose_modalOpenAttr (doc : Nat → ElemData) (m : Nat) (s : St) :
    (addBackdropClose doc m s).modalOpenAttr = s.modalOpenAttr := by
  unfold addBackdropClose; split <;> first | rfl | (split <;> rfl)

@[simp]
theorem addBackdropClose_body (doc : Nat → ElemData) (m : Nat) (s : St) :
    (addBackdropClose doc m s).body = s.body := by
  unfold addBackdropClose; split <;> first | rfl | (split <;> rfl)

@[simp]
theorem addBackdropClose_originalBodyStyles (doc : Nat → ElemData) (m : Nat) (s : St) :
    (addBackdropClose doc m s).originalBodyStyles = s.originalBodyStyles := by
  unfold addBackdropClose; split <;> first | rfl | (split <;> rfl)

@[simp]
theorem addBackdropClose_optimizedClass (doc : Nat → ElemData) (m : Nat) (s : St) :
    (addBackdropClose doc m s).optimizedClass = s.optimizedClass := by
  unfold addBackdropClose; split <;> first | rfl | (split <;> rfl)

@[simp]
theorem addBackdropClose_closeListenerAttr (doc : Nat → ElemData) (m : Nat) (s : St) :
    (addBackdropClose doc m s).closeListenerAttr = s.closeListenerAttr := by
  unfold addBackdropClose; split <;> first | rfl | (split <;> rfl)

@[simp]
theorem addBackdropClose_buttonHandlers (doc : Nat → ElemData) (m : Nat) (s : St) :
    (addBackdropClose doc m s).buttonHandlers = s.buttonHandlers := by
  unfold addBackdropClose; split <;> first | rfl | (split <;> rfl)

@[simp]
theorem addBackdropClose_rootCloseHandlers (doc : Nat → ElemData) (m : Nat) (s : St) :
    (addBackdropClose doc m s).rootCloseHandlers = s.rootCloseHandlers := by
  unfold addBackdropClose; split <;> first | rfl | (split <;> rfl)

@[simp]
theorem optimizeModalScroll_activeModals (doc : Nat → ElemData) (m : Nat) (s : St) :
    (optimizeModalScroll doc m s).activeModals = s.activeModals := by
  unfold optimizeModalScroll; split <;> rfl

@[simp]
theorem optimizeModalScroll_modalOpenAttr (doc : Nat → ElemData) (m : Nat) (s : St) :
    (optimizeModalScroll doc m s).modalOpenAttr = s.modalOpenAttr := by
  unfold optimizeModalScroll; split <;> rfl

@[simp]
theorem optimizeModalScroll_body (doc : Nat → ElemData) (m : Nat) (s : St) :
    (optimizeModalScroll doc m s).body = s.body := by
  unfold optimizeModalScroll; split <;> rfl

@[simp]
theorem optimizeModalScroll_originalBodyStyles (doc : Nat → ElemData) (m : Nat) (s : St) :
    (optimizeModalScroll doc m s).originalBodyStyles = s.originalBodyStyles := by
  unfold optimizeModalScroll; split <;> rfl

@[simp]
theorem optimizeModalScroll_optimizedClass (doc : Nat → ElemData) (m : Nat) (s : St) :
    (optimizeModalScroll doc m s).optimizedClass = s.optimizedClass := by
  unfold optimizeModalScroll; split <;> rfl

@[simp]
theorem optimizeModalScroll_closeListenerAttr (doc : Nat → ElemData) (m : Nat) (s : St) :
    (optimizeModalScroll doc m s).closeListenerAttr = s.closeListenerAttr := by
  unfold optimizeModalScroll; split <;> rfl

@[simp]
theorem optimizeModalScroll_buttonHandlers (doc : Nat → ElemData) (m : Nat) (s : St) :
    (optimizeModalScroll doc m s).buttonHandlers = s.buttonHandlers := by
  unfold optimizeModalScroll; split <;> rfl

@[simp]
theorem optimizeModalScroll_backdropAttr (doc : Nat → ElemData) (m : Nat) (s : St) :
    (optimizeModalScroll doc m s).backdropAttr = s.backdropAttr := by
  unfold optimizeModalScroll; split <;> rfl

@[simp]
theorem optimizeModalScroll_backdropHandlers (doc : Nat → ElemData) (m : Nat) (s : St) :
    (optimizeModalScroll doc m s).backdropHandlers = s.backdropHandlers := by
  unfold optimizeModalScroll; split <;> rfl

@[simp]
theorem optimizeModalScroll_rootCloseHandlers (doc : Nat → ElemData) (m : Nat) (s : St) :
    (optimizeModalScroll doc m s).rootCloseHandlers = s.rootCloseHandlers := by
  unfold optimizeModalScroll; split <;> rfl

theorem wireButtons_cons (b : Nat) (bs : List Nat) (s : St) :
    wireButtons (b :: bs) s =
      wireButtons bs
        (if b ∈ s.closeListenerAttr then s
         else { s with closeListenerAttr := b :: s.closeListenerAttr,
                       buttonHandlers := s.buttonHandlers ++ [b] }) := rfl

@[simp]
theorem wireButtons_activeModals (bs : List Nat) (s : St) :
    (wireButtons bs s).activeModals = s.activeModals := by
  induction bs generalizing s with
  | nil => rfl
  | cons b bs ih => rw [wireButtons_cons]; split <;> simp [ih]

@[simp]
theorem wireButtons_modalOpenAttr (bs : List Nat) (s : St) :
    (wireButtons bs s).modalOpenAttr = s.modalOpenAttr := by
  induction bs generalizing s with
  | nil => rfl
  | cons b bs ih => rw [wireButtons_cons]; split <;> simp [ih]

@[simp]
theorem wireButtons_body (bs : List Nat) (s : St) :
    (wireButtons bs s).body = s.body := by
  induction bs generalizing s with
  | nil => rfl
  | cons b bs ih => rw [wireButtons_cons]; split <;> simp [ih]

@[simp]
theorem wireButtons_originalBodyStyles (bs : List Nat) (s : St) :
    (wireButtons bs s).originalBodyStyles = s.originalBodyStyles := by
  induction bs generalizing s with
  | nil => rfl
  | cons b bs ih => rw [wireButtons_cons]; split <;> simp [ih]

@[simp]
theorem wireButtons_optimizedClass (bs : List Nat) (s : St) :
    (wireButtons bs s).optimizedClass = s.optimizedClass := by
  induction bs generalizing s with
  | nil => rfl
  | cons b bs ih => rw [wireButtons_cons]; split <;> simp [ih]

@[simp]
theorem wireButtons_backdropAttr (bs : List Nat) (s : St) :
    (wireButtons bs s).backdropAttr = s.backdropAttr := by
  induction bs generalizing s with
  | nil => rfl
  | cons b bs ih => rw [wireButtons_cons]; split <;> simp [ih]

@[simp]
theorem wireButtons_backdropHandlers (bs : List Nat) (s : St) :
    (wireButtons bs s).backdropHandlers = s.backdropHandlers := by
  induction bs generalizing s with
  | nil => rfl
  | cons b bs ih => rw [wireButtons_cons]; split <;> simp [ih]

@[simp]
theorem wireButtons_rootCloseHandlers (bs : List Nat) (s : St) :
    (wireButtons bs s).rootCloseHandlers = s.rootCloseHandlers := by
  induction bs generalizing s with
  | nil => rfl
  | cons b bs ih => rw [wireButtons_cons]; split <;> simp [ih]

@[simp]
theorem setupModalCloseListeners_activeModals (doc : Nat → ElemData) (m : Nat) (s : St) :
    (setupModalCloseListeners doc m s).activeModals = s.activeModals := by
  unfold setupModalCloseListeners; simp

@[simp]
theorem setupModalCloseListeners_modalOpenAttr (doc : Nat → ElemData) (m : Nat) (s : St) :
    (setupModalCloseListeners doc m s).modalOpenAttr = s.modalOpenAttr := by
  unfold setupModalCloseListeners; simp

@[simp]
theorem setupModalCloseListeners_body (doc : Nat → ElemData) (m : Nat) (s : St) :
    (setupModalCloseListeners doc m s).body = s.body := by
  unfold setupModalCloseListeners; simp

@[simp]
theorem setupModalCloseListeners_originalBodyStyles (doc : Nat → ElemData) (m : Nat) (s : St) :
    (setupModalCloseListeners doc m s).originalBodyStyles = s.originalBodyStyles := by
  unfold setupModalCloseListeners; simp

@[simp]
theorem setupModalCloseListeners_optimizedClass (doc : Nat → ElemData) (m : Nat) (s : St) :
    (setupModalCloseListeners doc m s).optimizedClass = s.optimizedClass := by
  unfold setupModalCloseListeners; simp

@[simp]
theorem setupModalCloseListeners_backdropAttr (doc : Nat → ElemData) (m : Nat) (s : St) :
    (setupModalCloseListeners doc m s).backdropAttr = s.backdropAttr := by
  unfold setupModalCloseListeners; simp

@[simp]
theorem setupModalCloseListeners_backdropHandlers (doc : Nat → ElemData) (m : Nat) (s : St) :
    (setupModalCloseListeners doc m s).backdropHandlers = s.backdropHandlers := by
  unfold setupModalCloseListeners; simp

@[simp]
theorem applyModalOptimizations_activeModals (doc : Nat → ElemData) (w m : Nat) (s : St) :
    (applyModalOptimizations doc w m s).activeModals = s.activeModals := by
  unfold applyModalOptimizations; simp

@[simp]
theorem applyModalOptimizations_originalBodyStyles (doc : Nat → ElemData) (w m : Nat) (s : St) :
    (applyModalOptimizations doc w m s).originalBodyStyles = s.originalBodyStyles := by
  unfold applyModalOptimizations; simp

@[simp]
theorem applyModalOptimizations_closeListenerAttr (doc : Nat → ElemData) (w m : Nat) (s : St) :
    (applyModalOptimizations doc w m s).closeListenerAttr = s.closeListenerAttr := by
  unfold applyModalOptimizations; simp

@[simp]
theorem applyModalOptimizations_buttonHandlers (doc : Nat → ElemData) (w m : Nat) (s : St) :
    (applyModalOptimizations doc w m s).buttonHandlers = s.buttonHandlers := by
  unfold applyModalOptimizations; simp

@[simp]
theorem applyModalOptimizations_rootCloseHandlers (doc : Nat → ElemData) (w m : Nat) (s : St) :
    (applyModalOptimizations doc w m s).rootCloseHandlers = s.rootCloseHandlers := by
  unfold applyModalOptimizations; simp

@[simp]
theorem removeClass_optimizedClass (m : Nat) (s : St) :
    (removeClass m s).optimizedClass = s.optimizedClass.filter (fun x => x != m) := rfl

@[simp]
theorem doCloseModal_events (m : Nat) (s : St) :
    (doCloseModal m s).events = s.events ++ [m] := by
  unfold doCloseModal; dsimp only; split <;> simp

@[simp]
theorem doCloseModal_activeModals (m : Nat) (s : St) :
    (doCloseModal m s).activeModals = s.activeModals.erase m := by
  unfold doCloseModal; dsimp only; split <;> simp

@[simp]
theorem doCloseModal_optimizedClass (m : Nat) (s : St) :
    (doCloseModal m s).optimizedClass = s.optimizedClass.filter (fun x => x != m) := by
  unfold doCloseModal; dsimp only; split <;> simp

/-- Claim C7: the scroll-lock engage operation (preventBackgroundScroll)
is a no-op when the data-modal-open lock attribute is already set, and the
disengage operation (restoreBodyStyles) is a no-op when it is absent, so
both are safe to call redundantly in any order. -/
theorem scroll_lock_engage_disengage_noop (s : St) :
    (s.modalOpenAttr = true → preventBackgroundScroll s = s) ∧
    (s.modalOpenAttr = false → restoreBodyStyles s = s) := by
  constructor
  · intro h; unfold preventBackgroundScroll; simp [h]
  · intro h; unfold restoreBodyStyles; simp [h]

theorem scroll_lock_engage_disengage_noop_witness :
    (preventBackgroundScroll { st0 with modalOpenAttr := true } =
       { st0 with modalOpenAttr := true }) ∧
    restoreBodyStyles st0 = st0 :=
  ⟨(scroll_lock_engage_disengage_noop { st0 with modalOpenAttr := true }).1 rfl,
   (scroll_lock_engage_disengage_noop st0).2 rfl⟩

/-- Claim C5: capturing the body style snapshot (saveBodyStyles, from a
state whose snapshot is empty) and later restoring it (restoreBodyStyles
in any intermediate state that still carries that snapshot and has the
lock attribute set) leaves each of the eight tracked body style
properties equal to its pre-capture value. -/
theorem body_styles_roundtrip (s s2 : St)
    (h0 : s.originalBodyStyles = none)
    (hsnap : s2.originalBodyStyles = (saveBodyStyles s).originalBodyStyles)
    (hattr : s2.modalOpenAttr = true) :
    (restoreBodyStyles s2).body.position = s.body.position ∧
    (restoreBodyStyles s2).body.top = s.body.top ∧
    (restoreBodyStyles s2).body.left = s.body.left ∧
    (restoreBodyStyles s2).body.right = s.body.right ∧
    (restoreBodyStyles s2).body.bottom = s.body.bottom ∧
    (restoreBodyStyles s2).body.overflow = s.body.overflow ∧
    (restoreBodyStyles s2).body.height = s.body.height ∧
    (restoreBodyStyles s2).body.width = s.body.width := by
  have hsave : (saveBodyStyles s).originalBodyStyles = some s.body := by
    unfold saveBodyStyles; rw [h0]
  have hb : (restoreBodyStyles s2).body = s.body := by
    unfold restoreBodyStyles
    rw [hattr]
    simp [hsnap, hsave]
  simp [hb]

theorem body_styles_roundtrip_witness :
    (restoreBodyStyles (preventBackgroundScroll (saveBodyStyles st0))).body.position
      = st0.body.position ∧
    (restoreBodyStyles (preventBackgroundScroll (saveBodyStyles st0))).body.top
      = st0.body.top ∧
    (restoreBodyStyles (preventBackgroundScroll (saveBodyStyles st0))).body.left
      = st0.body.left ∧
    (restoreBodyStyles (preventBackgroundScroll (saveBodyStyles st0))).body.right
      = st0.body.right ∧
    (restoreBodyStyles (preventBackgroundScroll (saveBodyStyles st0))).body.bottom
      = st0.body.bottom ∧
    (restoreBodyStyles (preventBackgroundScroll (saveBodyStyles st0))).body.overflow
      = st0.body.overflow ∧
    (restoreBodyStyles (preventBackgroundScroll (saveBodyStyles st0))).body.height
      = st0.body.height ∧
    (restoreBodyStyles (preventBackgroundScroll (saveBodyStyles st0))).body.width
      = st0.body.width :=
  body_styles_roundtrip st0 (preventBackgroundScroll (saveBodyStyles st0))
    (by decide) (by decide) (by decide)

/-- Claim C10: running the close continuation doCloseModal on a node that
is not in the registry leaves the registry unchanged, but still strips the
mobile-modal-optimized marker class from the node and dispatches a closed
event on it; and running the close continuation twice on the same node
dispatches the closed event twice. -/
theorem doCloseModal_unregistered_effects (m : Nat) (s : St)
    (hm : m ∉ s.activeModals) :
    (doCloseModal m s).activeModals = s.activeModals ∧
    m ∉ (doCloseModal m s).optimizedClass ∧
    (doCloseModal m s).events = s.events ++ [m] ∧
    (∀ t : St, (doCloseModal m (doCloseModal m t)).events = t.events ++ [m, m]) := by
  refine ⟨?_, ?_, ?_, ?_⟩
  · simp [List.erase_of_not_mem hm]
  · simp
  · simp
  · intro t; simp

theorem doCloseModal_unregistered_effects_witness :
    (doCloseModal 7 st0).activeModals = st0.activeModals ∧
    7 ∉ (doCloseModal 7 st0).optimizedClass ∧
    (doCloseModal 7 st0).events = st0.events ++ [7] ∧
    (doCloseModal 7 (doCloseModal 7 st0)).events = st0.events ++ [7, 7] :=
  ⟨(doCloseModal_unregistered_effects 7 st0 (by decide)).1,
   (doCloseModal_unregistered_effects 7 st0 (by decide)).2.1,
   (doCloseModal_unregistered_effects 7 st0 (by decide)).2.2.1,
   (doCloseModal_unregistered_effects 7 st0 (by decide)).2.2.2 st0⟩

/-- Claim C3: when the viewport width is in the mobile range (w ≤ 768) at
close-trigger time, closeModal leaves the registry, the body styles, the
lock attribute, the snapshot, the marker classes and the event log
untouched, and only schedules the close continuation doCloseModal with
the fixed 300 ms transition delay (plus the exit transform write); when
the width is in the desktop range, closeModal runs doCloseModal
immediately. -/
theorem closeModal_mobile_defers_desktop_immediate
    (doc : Nat → ElemData) (w m : Nat) (s : St) :
    (w ≤ 768 →
       (closeModal doc w m s).activeModals = s.activeModals ∧
       (closeModal doc w m s).modalOpenAttr = s.modalOpenAttr ∧
       (closeModal doc w m s).body = s.body ∧
       (closeModal doc w m s).originalBodyStyles = s.originalBodyStyles ∧
       (closeModal doc w m s).optimizedClass = s.optimizedClass ∧
       (closeModal doc w m s).events = s.events ∧
       (closeModal doc w m s).timers = s.timers ++ [(300, TimerAct.doClose m)] ∧
       (∀ t : St, runTimerAct (TimerAct.doClose m) t = doCloseModal m t)) ∧
    (768 < w → closeModal doc w m s = doCloseModal m s) := by
  constructor
  · intro hw
    simp [closeModal, hw, runTimerAct]
  · intro hw
    have hnot : ¬ w ≤ 768 := by omega
    simp [closeModal, hnot]

/-!
Helper lemmas about the descendant-erase fold inside checkForModalRemoval.
-/

theorem remFold_timers (l : List Nat) (s : St) :
    (l.foldl (fun t c => { t with activeModals := t.activeModals.erase c }) s).timers
      = s.timers := by
  induction l generalizing s with
  | nil => rfl
  | cons c cs ih => simp only [List.foldl_cons]; rw [ih]

theorem remFold_events (l : List Nat) (s : St) :
    (l.foldl (fun t c => { t with activeModals := t.activeModals.erase c }) s).events
      = s.events := by
  induction l generalizing s with
  | nil => rfl
  | cons c cs ih => simp only [List.foldl_cons]; rw [ih]

theorem remFold_body (l : List Nat) (s : St) :
    (l.foldl (fun t c => { t with activeModals := t.activeModals.erase c }) s).body
      = s.body := by
  induction l generalizing s with
  | nil => rfl
  | cons c cs ih => simp only [List.foldl_cons]; rw [ih]

theorem remFold_modalOpenAttr (l : List Nat) (s : St) :
    (l.foldl (fun t c => { t with activeModals := t.activeModals.erase c }) s).modalOpenAttr
      = s.modalOpenAttr := by
  induction l generalizing s with
  | nil => rfl
  | cons c cs ih => simp only [List.foldl_cons]; rw [ih]

theorem remFold_originalBodyStyles (l : List Nat) (s : St) :
    (l.foldl (fun t c =>
        { t with activeModals := t.activeModals.erase c }) s).originalBodyStyles
      = s.originalBodyStyles := by
  induction l generalizing s with
  | nil => rfl
  | cons c cs ih => simp only [List.foldl_cons]; rw [ih]

theorem remFold_not_mem (l : List Nat) (s : St) (m : Nat)
    (hm : m ∉ s.activeModals) :
    m ∉ (l.foldl (fun t c =>
        { t with activeModals := t.activeModals.erase c }) s).activeModals := by
  induction l generalizing s with
  | nil => exact hm
  | cons c cs ih =>
      simp only [List.foldl_cons]
      exact ih _ (fun h => hm (List.mem_of_mem_erase h))

theorem remFold_nodup (l : List Nat) (s : St)
    (hnd : s.activeModals.Nodup) :
    (l.foldl (fun t c =>
        { t with activeModals := t.activeModals.erase c }) s).activeModals.Nodup := by
  induction l generalizing s with
  | nil => exact hnd
  | cons c cs ih =>
      simp only [List.foldl_cons]
      exact ih _ (hnd.erase c)

theorem remFold_kills (l : List Nat) (s : St) (m : Nat)
    (hm : m ∈ l) (hnd : s.activeModals.Nodup) :
    m ∉ (l.foldl (fun t c =>
        { t with activeModals := t.activeModals.erase c }) s).activeModals := by
  induction l generalizing s with
  | nil => cases hm
  | cons c cs ih =>
      simp only [List.foldl_cons]
      rcases List.mem_cons.mp hm with h | h
      · subst h
        apply remFold_not_mem
        intro hcontra
        exact ((hnd.mem_erase_iff).mp hcontra).1 rfl
      · exact ih _ h (hnd.erase c)

theorem checkForModalRemoval_timers (doc : Nat → ElemData) (e : Nat) (s : St) :
    (checkForModalRemoval doc e s).timers = s.timers := by
  unfold checkForModalRemoval
  dsimp only
  rw [remFold_timers]
  split <;> simp

theorem checkForModalRemoval_events (doc : Nat → ElemData) (e : Nat) (s : St) :
    (checkForModalRemoval doc e s).events = s.events := by
  unfold checkForModalRemoval
  dsimp only
  rw [remFold_events]
  split <;> simp

theorem checkForModalRemoval_not_mem_mono (doc : Nat → ElemData) (e : Nat) (s : St)
    (m : Nat) (hm : m ∉ s.activeModals) :
    m ∉ (checkForModalRemoval doc e s).activeModals := by
  unfold checkForModalRemoval
  dsimp only
  apply remFold_not_mem
  split
  · simp only [restoreBodyStyles_activeModals]
    exact fun h => hm (List.mem_of_mem_erase h)
  · exact hm

theorem checkForModalRemoval_self_not_mem (doc : Nat → ElemData) (m : Nat) (s : St)
    (hnd : s.activeModals.Nodup) :
    m ∉ (checkForModalRemoval doc m s).activeModals := by
  unfold checkForModalRemoval
  dsimp only
  apply remFold_not_mem
  by_cases hm : m ∈ s.activeModals
  · rw [if_pos hm]
    simp only [restoreBodyStyles_activeModals]
    intro hcontra
    exact ((hnd.mem_erase_iff).mp hcontra).1 rfl
  · rw [if_neg hm]
    exact hm

theorem checkForModalRemoval_nodup (doc : Nat → ElemData) (e : Nat) (s : St)
    (hnd : s.activeModals.Nodup) :
    (checkForModalRemoval doc e s).activeModals.Nodup := by
  unfold checkForModalRemoval
  dsimp only
  apply remFold_nodup
  split
  · simp only [restoreBodyStyles_activeModals]
    exact hnd.erase e
  · exact hnd

theorem closeModal_mobile_defers_witness :
    ((closeModal doc0 375 2 stAB).activeModals = stAB.activeModals ∧
     (closeModal doc0 375 2 stAB).modalOpenAttr = stAB.modalOpenAttr ∧
     (closeModal doc0 375 2 stAB).body = stAB.body ∧
     (closeModal doc0 375 2 stAB).originalBodyStyles = stAB.originalBodyStyles ∧
     (closeModal doc0 375 2 stAB).optimizedClass = stAB.optimizedClass ∧
     (closeModal doc0 375 2 stAB).events = stAB.events ∧
     (closeModal doc0 375 2 stAB).timers = stAB.timers ++ [(300, TimerAct.doClose 2)] ∧
     runTimerAct (TimerAct.doClose 2) stAB = doCloseModal 2 stAB) ∧
    (closeModal doc0 1024 2 stAB = doCloseModal 2 stAB) :=
  ⟨⟨((closeModal_mobile_defers_desktop_immediate doc0 375 2 stAB).1 (by decide)).1,
    ((closeModal_mobile_defers_desktop_immediate doc0 375 2 stAB).1 (by decide)).2.1,
    ((closeModal_mobile_defers_desktop_immediate doc0 375 2 stAB).1 (by decide)).2.2.1,
    ((closeModal_mobile_defers_desktop_immediate doc0 375 2 stAB).1 (by decide)).2.2.2.1,
    ((closeModal_mobile_defers_desktop_immediate doc0 375 2 stAB).1 (by decide)).2.2.2.2.1,
    ((closeModal_mobile_defers_desktop_immediate doc0 375 2 stAB).1 (by decide)).2.2.2.2.2.1,
    ((closeModal_mobile_defers_desktop_immediate doc0 375 2 stAB).1 (by decide)).2.2.2.2.2.2.1,
    ((closeModal_mobile_defers_desktop_immediate doc0 375 2 stAB).1 (by decide)).2.2.2.2.2.2.2 stAB⟩,
   (closeModal_mobile_defers_desktop_immediate doc0 1024 2 stAB).2 (by decide)⟩

/-- Claim C8: when a registered overlay root is removed directly from the
tree, checkForModalRemoval removes it from the registry immediately in the
same mutation-processing turn — no timer is scheduled and no closed event
is dispatched. -/
theorem direct_removal_immediate_no_event (doc : Nat → ElemData) (m : Nat) (s : St)
    (hnd : s.activeModals.Nodup) (hm : m ∈ s.activeModals) :
    m ∉ (checkForModalRemoval doc m s).activeModals ∧
    (checkForModalRemoval doc m s).timers = s.timers ∧
    (checkForModalRemoval doc m s).events = s.events :=
  ⟨checkForModalRemoval_self_not_mem doc m s hnd,
   checkForModalRemoval_timers doc m s,
   checkForModalRemoval_events doc m s⟩

theorem direct_removal_immediate_no_event_witness :
    1 ∉ (checkForModalRemoval doc0 1 stA).activeModals ∧
    (checkForModalRemoval doc0 1 stA).timers = stA.timers ∧
    (checkForModalRemoval doc0 1 stA).events = stA.events :=
  direct_removal_immediate_no_event doc0 1 stA (by decide) (by decide)

/-- Claim C9: when a registered overlay is deregistered because a removed
node strictly contains its root (the removed node itself is not
registered), the body styles, the lock attribute and the snapshot are all
left unchanged by checkForModalRemoval — even when the registry becomes
empty as a result. -/
theorem descendant_removal_preserves_body (doc : Nat → ElemData) (r m : Nat) (s : St)
    (hr : r ∉ s.activeModals) (hnd : s.activeModals.Nodup)
    (hm : m ∈ (doc r).childRemIds) (hm2 : m ∈ s.activeModals) :
    (checkForModalRemoval doc r s).body = s.body ∧
    (checkForModalRemoval doc r s).modalOpenAttr = s.modalOpenAttr ∧
    (checkForModalRemoval doc r s).originalBodyStyles = s.originalBodyStyles ∧
    m ∉ (checkForModalRemoval doc r s).activeModals := by
  unfold checkForModalRemoval
  dsimp only
  rw [if_neg hr]
  exact ⟨remFold_body _ _, remFold_modalOpenAttr _ _,
         remFold_originalBodyStyles _ _, remFold_kills _ _ _ hm hnd⟩

theorem descendant_removal_preserves_body_witness :
    (checkForModalRemoval doc0 3 stC).body = stC.body ∧
    (checkForModalRemoval doc0 3 stC).modalOpenAttr = stC.modalOpenAttr ∧
    (checkForModalRemoval doc0 3 stC).originalBodyStyles = stC.originalBodyStyles ∧
    2 ∉ (checkForModalRemoval doc0 3 stC).activeModals :=
  descendant_removal_preserves_body doc0 3 2 stC
    (by decide) (by decide) (by decide) (by decide)

/-- Claim C1 (refuted at this input): with modals 1 and 2 both registered
and the lock attribute set, removing modal 1 directly from the tree leaves
modal 2 registered yet clears the data-modal-open attribute, because
checkForModalRemoval calls restoreBodyStyles unconditionally instead of
only when the registry becomes empty; so the attribute is not equivalent
to registry non-emptiness. -/
theorem lock_cleared_while_registry_nonempty :
    stAB.activeModals = [1, 2] ∧
    stAB.modalOpenAttr = true ∧
    (checkForModalRemoval doc0 1 stAB).activeModals = [2] ∧
    (checkForModalRemoval doc0 1 stAB).modalOpenAttr = false := by decide

/-- Claim C4: with overlays a then b registered (in that order), an Escape
keypress invokes closeModal only on b, the last-inserted entry re-read
from the registry; once b's close continuation has completed, a further
Escape invokes closeModal only on a; and Escape with an empty registry
changes nothing. -/
theorem escape_closes_top_lifo (doc : Nat → ElemData) (w a b : Nat) (s : St)
    (hab : a ≠ b) (h : s.activeModals = [a, b]) :
    pressEscape doc w s = closeModal doc w b s ∧
    (doCloseModal b s).activeModals = [a] ∧
    pressEscape doc w (doCloseModal b s) = closeModal doc w a (doCloseModal b s) ∧
    (∀ t : St, t.activeModals = [] → pressEscape doc w t = t) := by
  have h2 : (doCloseModal b s).activeModals = [a] := by
    rw [doCloseModal_activeModals, h]
    simp [List.erase_cons, hab]
  refine ⟨?_, h2, ?_, ?_⟩
  · unfold pressEscape
    rw [h]
    rfl
  · unfold pressEscape
    rw [h2]
    rfl
  · intro t ht
    unfold pressEscape
    rw [ht]
    rfl

theorem escape_closes_top_lifo_witness :
    pressEscape doc0 375 stAB = closeModal doc0 375 2 stAB ∧
    (doCloseModal 2 stAB).activeModals = [1] ∧
    pressEscape doc0 375 (doCloseModal 2 stAB) = closeModal doc0 375 1 (doCloseModal 2 stAB) ∧
    pressEscape doc0 375 st0 = st0 :=
  ⟨(escape_closes_top_lifo doc0 375 1 2 stAB (by decide) (by decide)).1,
   (escape_closes_top_lifo doc0 375 1 2 stAB (by decide) (by decide)).2.1,
   (escape_closes_top_lifo doc0 375 1 2 stAB (by decide) (by decide)).2.2.1,
   (escape_closes_top_lifo doc0 375 1 2 stAB (by decide) (by decide)).2.2.2 st0 (by decide)⟩

/-!
Helper lemmas for registry membership and duplicate-freedom through the
addition path.
-/

theorem optimizeModal_activeModals (doc : Nat → ElemData) (w m : Nat) (s : St) :
    (optimizeModal doc w m s).activeModals =
      if m ∈ s.activeModals then s.activeModals else s.activeModals ++ [m] := by
  unfold optimizeModal
  dsimp only
  split <;> simp

theorem optimizeModal_mem_eq (doc : Nat → ElemData) (w m : Nat) (s : St)
    (h : m ∈ s.activeModals) : optimizeModal doc w m s = s := by
  unfold optimizeModal
  rw [if_pos h]

theorem optimizeModal_nodup (doc : Nat → ElemData) (w m : Nat) (s : St)
    (hnd : s.activeModals.Nodup) : (optimizeModal doc w m s).activeModals.Nodup := by
  rw [optimizeModal_activeModals]
  by_cases hm : m ∈ s.activeModals
  · simpa [hm] using hnd
  · simp [hm, List.nodup_append, hnd]

theorem childAddFold_nodup (doc : Nat → ElemData) (w : Nat) (l : List Nat) (s : St)
    (hnd : s.activeModals.Nodup) :
    ((l.foldl (fun t c => if c ∈ t.activeModals then t
               else optimizeModal doc w c t) s).activeModals).Nodup := by
  induction l generalizing s with
  | nil => exact hnd
  | cons c cs ih =>
      simp only [List.foldl_cons]
      apply ih
      split
      · exact hnd
      · exact optimizeModal_nodup doc w c s hnd

theorem checkForModal_nodup (doc : Nat → ElemData) (w e : Nat) (s : St)
    (hnd : s.activeModals.Nodup) :
    (checkForModal doc w e s).activeModals.Nodup := by
  unfold checkForModal
  dsimp only
  apply childAddFold_nodup
  split
  · exact optimizeModal_nodup doc w e s hnd
  · exact hnd

theorem addFold_nodup (doc : Nat → ElemData) (w : Nat) (l : List Nat) (s : St)
    (hnd : s.activeModals.Nodup) :
    ((l.foldl (fun t n => checkForModal doc w n t) s).activeModals).Nodup := by
  induction l generalizing s with
  | nil => exact hnd
  | cons c cs ih =>
      simp only [List.foldl_cons]
      exact ih _ (checkForModal_nodup doc w c s hnd)

theorem remCallsFold_not_mem_mono (doc : Nat → ElemData) (l : List Nat) (s : St)
    (m : Nat) (hm : m ∉ s.activeModals) :
    m ∉ ((l.foldl (fun t n => checkForModalRemoval doc n t) s).activeModals) := by
  induction l generalizing s with
  | nil => exact hm
  | cons c cs ih =>
      simp only [List.foldl_cons]
      exact ih _ (checkForModalRemoval_not_mem_mono doc c s m hm)

theorem remCallsFold_kills (doc : Nat → ElemData) (l : List Nat) (s : St)
    (m : Nat) (hm : m ∈ l) (hnd : s.activeModals.Nodup) :
    m ∉ ((l.foldl (fun t n => checkForModalRemoval doc n t) s).activeModals) := by
  induction l generalizing s with
  | nil => cases hm
  | cons c cs ih =>
      simp only [List.foldl_cons]
      rcases List.mem_cons.mp hm with h | h
      · subst h
        exact remCallsFold_not_mem_mono doc cs _ m
          (checkForModalRemoval_self_not_mem doc m s hnd)
      · exact ih _ h (checkForModalRemoval_nodup doc c s hnd)

/-- Claim C2 (refuted as stated): addition handling precedes removal
handling only within each individual mutation record, not across the whole
batch.  In the two-record batch where record one removes modal 1 and
record two re-adds it, modal 1 is both added and removed within the batch,
yet it is still present in the registry after the batch is processed. -/
theorem batch_add_remove_stays_registered_cex :
    1 ∈ batchAdded [MutationRec.mk [] [1], MutationRec.mk [1] []] ∧
    1 ∈ batchRemoved [MutationRec.mk [] [1], MutationRec.mk [1] []] ∧
    1 ∈ (processBatch doc0 375
          [MutationRec.mk [] [1], MutationRec.mk [1] []] stA).activeModals := by
  decide

/-- Claim C2 (amended): within each single mutation record all addition
handling runs before all removal handling; consequently a node that is
both added and removed within a single-record batch is not present in the
registry (assumed duplicate-free) after the batch is processed. -/
theorem record_add_remove_deregisters (doc : Nat → ElemData) (w m : Nat)
    (r : MutationRec) (s : St) (hnd : s.activeModals.Nodup)
    (hadd : m ∈ r.added) (hrem : m ∈ r.removed) :
    m ∉ (processBatch doc w [r] s).activeModals := by
  have h1 : processBatch doc w [r] s = processRecord doc w r s := by
    unfold processBatch
    simp
  rw [h1]
  unfold processRecord
  dsimp only
  exact remCallsFold_kills doc r.removed _ m hrem (addFold_nodup doc w r.added s hnd)

theorem record_add_remove_deregisters_witness :
    1 ∉ (processBatch doc0 375 [MutationRec.mk [1] [1]] st0).activeModals :=
  record_add_remove_deregisters doc0 375 1 (MutationRec.mk [1] [1]) st0
    (by decide) (by decide) (by decide)

/-!
Helper lemmas for close-listener wiring multiplicities.
-/

theorem mem_optimizeModal (doc : Nat → ElemData) (w m : Nat) (s : St) :
    m ∈ (optimizeModal doc w m s).activeModals := by
  rw [optimizeModal_activeModals]
  split
  · assumption
  · simp

theorem wireButtons_attr_mono (bs : List Nat) (s : St) (b : Nat)
    (h : b ∈ s.closeListenerAttr) : b ∈ (wireButtons bs s).closeListenerAttr := by
  induction bs generalizing s with
  | nil => exact h
  | cons c cs ih =>
      rw [wireButtons_cons]
      split
      · exact ih _ h
      · exact ih _ (List.mem_cons_of_mem _ h)

theorem wireButtons_count_attr (bs : List Nat) (s : St) (b : Nat)
    (h : b ∈ s.closeListenerAttr) :
    (wireButtons bs s).buttonHandlers.count b = s.buttonHandlers.count b := by
  induction bs generalizing s with
  | nil => rfl
  | cons c cs ih =>
      rw [wireButtons_cons]
      split
      · exact ih _ h
      · rename_i hc
        have hbc : b ≠ c := fun he => hc (he ▸ h)
        rw [ih _ (List.mem_cons_of_mem _ h)]
        simp [List.count_append, hbc]

theorem wireButtons_count_wired (bs : List Nat) (s : St) (b : Nat)
    (hb : b ∈ bs) (h : b ∉ s.closeListenerAttr) :
    (wireButtons bs s).buttonHandlers.count b = s.buttonHandlers.count b + 1 := by
  induction bs generalizing s with
  | nil => cases hb
  | cons c cs ih =>
      rw [wireButtons_cons]
      by_cases hcb : c = b
      · subst hcb
        rw [if_neg h]
        rw [wireButtons_count_attr cs _ c (List.mem_cons_self c _)]
        simp [List.count_append]
      · have hbcs : b ∈ cs := by
          rcases List.mem_cons.mp hb with h' | h'
          · exact absurd h'.symm hcb
          · exact h'
        split
        · exact ih _ hbcs h
        · have hnot : b ∉ c :: s.closeListenerAttr := by
            intro hmem
            rcases List.mem_cons.mp hmem with h' | h'
            · exact hcb h'.symm
            · exact h h'
          rw [ih _ hbcs hnot]
          have hbc : b ≠ c := fun he => hcb he.symm
          simp [List.count_append, hbc]

theorem optimizeModal_not_mem_eq (doc : Nat → ElemData) (w m : Nat) (s : St)
    (hm : m ∉ s.activeModals) :
    optimizeModal doc w m s =
      setupModalCloseListeners doc m
        (applyModalOptimizations doc w m
          (saveBodyStyles { s with activeModals := s.activeModals ++ [m] })) := by
  unfold optimizeModal
  rw [if_neg hm]

theorem setupModalCloseListeners_rootCloseHandlers_eq (doc : Nat → ElemData)
    (m : Nat) (s : St) :
    (setupModalCloseListeners doc m s).rootCloseHandlers
      = s.rootCloseHandlers ++ [m] := by
  unfold setupModalCloseListeners
  dsimp only
  simp

theorem setupModalCloseListeners_buttonHandlers_eq (doc : Nat → ElemData)
    (m : Nat) (s : St) :
    (setupModalCloseListeners doc m s).buttonHandlers
      = (wireButtons (doc m).closeButtons s).buttonHandlers := rfl

theorem addBackdropClose_handlers_some (doc : Nat → ElemData) (m : Nat) (s : St)
    (bk : Nat) (hsome : (doc m).backdrop = some bk) (hattr : bk ∉ s.backdropAttr) :
    (addBackdropClose doc m s).backdropHandlers = s.backdropHandlers ++ [bk] := by
  unfold addBackdropClose
  rw [hsome]
  dsimp only
  rw [if_neg hattr]

/-- Claim C6: invoking the registration entry point optimizeModal twice on
the same root node yields the same state as invoking it once, with exactly
one registry entry for that root, exactly one custom close-signal handler
on the root, each close button wired exactly once (even when the button
query returns duplicates), and the backdrop wired exactly once. -/
theorem optimizeModal_idempotent_single_wiring (doc : Nat → ElemData) (w m : Nat)
    (s : St) (hm : m ∉ s.activeModals)
    (hroot : s.rootCloseHandlers.count m = 0)
    (hbtn : ∀ b ∈ (doc m).closeButtons,
       b ∉ s.closeListenerAttr ∧ s.buttonHandlers.count b = 0)
    (hbk : ∀ bk, (doc m).backdrop = some bk →
       bk ∉ s.backdropAttr ∧ s.backdropHandlers.count bk = 0) :
    optimizeModal doc w m (optimizeModal doc w m s) = optimizeModal doc w m s ∧
    (optimizeModal doc w m s).activeModals.count m = 1 ∧
    (optimizeModal doc w m s).rootCloseHandlers.count m = 1 ∧
    (∀ b ∈ (doc m).closeButtons,
       (optimizeModal doc w m s).buttonHandlers.count b = 1) ∧
    (∀ bk, (doc m).backdrop = some bk →
       (optimizeModal doc w m s).backdropHandlers.count bk = 1) := by
  refine ⟨optimizeModal_mem_eq doc w m _ (mem_optimizeModal doc w m s), ?_, ?_, ?_, ?_⟩
  · rw [optimizeModal_activeModals, if_neg hm]
    simp [List.count_append, List.count_eq_zero.mpr hm]
  · rw [optimizeModal_not_mem_eq doc w m s hm,
        setupModalCloseListeners_rootCloseHandlers_eq]
    simp [List.count_append, hroot]
  · intro b hb
    obtain ⟨hattr, hcount⟩ := hbtn b hb
    rw [optimizeModal_not_mem_eq doc w m s hm,
        setupModalCloseListeners_buttonHandlers_eq]
    have h3attr :
        (applyModalOptimizations doc w m
          (saveBodyStyles { s with activeModals := s.activeModals ++ [m] })).closeListenerAttr
          = s.closeListenerAttr := by simp
    have h3btn :
        (applyModalOptimizations doc w m
          (saveBodyStyles { s with activeModals := s.activeModals ++ [m] })).buttonHandlers
          = s.buttonHandlers := by simp
    rw [wireButtons_count_wired _ _ _ hb (by rw [h3attr]; exact hattr)]
    rw [h3btn, hcount]
  · intro bk hbkeq
    obtain ⟨hattr, hcount⟩ := hbk bk hbkeq
    have key : (optimizeModal doc w m s).backdropHandlers
        = s.backdropHandlers ++ [bk] := by
      rw [optimizeModal_not_mem_eq doc w m s hm,
          setupModalCloseListeners_backdropHandlers]
      unfold applyModalOptimizations
      dsimp only
      rw [optimizeModalScroll_backdropHandlers,
          addBackdropClose_handlers_some doc m _ bk hbkeq (by simpa using hattr)]
      simp
    rw [key]
    simp [List.count_append, hcount]

theorem optimizeModal_idempotent_single_wiring_witness :
    optimizeModal doc0 375 1 (optimizeModal doc0 375 1 st0)
      = optimizeModal doc0 375 1 st0 ∧
    (optimizeModal doc0 375 1 st0).activeModals.count 1 = 1 ∧
    (optimizeModal doc0 375 1 st0).rootCloseHandlers.count 1 = 1 ∧
    (optimizeModal doc0 375 1 st0).buttonHandlers.count 10 = 1 ∧
    (optimizeModal doc0 375 1 st0).backdropHandlers.count 20 = 1 :=
  ⟨(optimizeModal_idempotent_single_wiring doc0 375 1 st0
      (by decide) (by decide) (by decide) (by decide)).1,
   (optimizeModal_idempotent_single_wiring doc0 375 1 st0
      (by decide) (by decide) (by decide) (by decide)).2.1,
   (optimizeModal_idempotent_single_wiring doc0 375 1 st0
      (by decide) (by decide) (by decide) (by decide)).2.2.1,
   (optimizeModal_idempotent_single_wiring doc0 375 1 st0
      (by decide) (by decide) (by decide) (by decide)).2.2.2.1 10 (by decide),
   (optimizeModal_idempotent_single_wiring doc0 375 1 st0
      (by decide) (by decide) (by decide) (by decide)).2.2.2.2 20 (by decide)⟩

end MobileModal
